import Mathlib

/-!
Verification development for the mediaDL backend (`src/app.py`).

The Python source is shallowly embedded: the job-record dictionary becomes
the `Job` structure, the global `JOBS` dict becomes a `Store` function,
`update_job_progress` / the yt-dlp progress hook / the `/download`
validation / `find_downloaded_file` / the SSE generator / `cleanup_old_jobs`
become executable Lean functions.  Machine integers are modelled as `Int`
(Python ints are unbounded); wall-clock instants are `Int` parameters fed to
the functions at the points where the source calls `time.time()` or
`datetime.now()`.  String primitives are re-implemented over `List Char`
so that every definition reduces inside the kernel.
-/

/-! ### String primitives (models of Python `str` operations) -/

/-- Character-list prefix test: first argument is the candidate prefix. -/
def isPrefixOfCh : List Char → List Char → Bool
  | [], _ => true
  | _ :: _, [] => false
  | a :: as, b :: bs => a = b && isPrefixOfCh as bs

/-- Substring containment on character lists (Python `pat in s`). -/
def containsSub : List Char → List Char → Bool
  | [], pat => isPrefixOfCh pat []
  | s@(_ :: rest), pat => isPrefixOfCh pat s || containsSub rest pat

/-- Python `pat in s` for strings. -/
def strContains (s pat : String) : Bool :=
  containsSub s.data pat.data

/-- Python `s.startswith(pre)`. -/
def strStartsWith (s pre : String) : Bool :=
  isPrefixOfCh pre.data s.data

/-- Character-list suffix test: first argument is the candidate suffix. -/
def isSuffixOfCh (pat s : List Char) : Bool :=
  isPrefixOfCh pat.reverse s.reverse

/-- Python `s.endswith(suf)`. -/
def strEndsWith (s suf : String) : Bool :=
  isSuffixOfCh suf.data s.data

/-- ASCII lower-casing of one character (what CPython does on ASCII input). -/
def toLowerCh (c : Char) : Char :=
  if 'A' ≤ c ∧ c ≤ 'Z' then Char.ofNat (c.toNat + 32) else c

/-- Python `s.lower()` (ASCII range, which covers every string the code compares). -/
def lowerStr (s : String) : String :=
  String.mk (s.data.map toLowerCh)

/-- Python `s.strip()`: drop whitespace from both ends. -/
def stripStr (s : String) : String :=
  String.mk (((s.data.dropWhile Char.isWhitespace).reverse.dropWhile Char.isWhitespace).reverse)

/-- Suffix of `s` just after the first occurrence of `pat`, if `pat` occurs. -/
def afterSub : List Char → List Char → Option (List Char)
  | s, pat =>
    match s with
    | [] => if isPrefixOfCh pat [] then some [] else none
    | _ :: rest =>
      if isPrefixOfCh pat s then some (s.drop pat.length)
      else afterSub rest pat

/-! ### The job record (`JOBS[job_id]` dict, `src/app.py` lines 476-489) -/

/-- One entry of the global `JOBS` dict.  `filename` and `error` are `None`
at creation, so they are `Option String`; timestamps are `Int` seconds. -/
structure Job where
  status : String
  percent : Int
  downloaded_bytes : Int
  total_bytes : Int
  speed : String
  filename : Option String
  error : Option String
  platform : String
  media_type : String
  start_time : Int
  last_update : Int
deriving DecidableEq

/-- The global `JOBS` dict: job id to record. -/
def Store : Type := String → Option Job

/-- The record built at job creation (`src/app.py` lines 477-489). -/
def createJob (platform media_type : String) (now : Int) : Job :=
  { status := "queued"
    percent := 0
    downloaded_bytes := 0
    total_bytes := 0
    speed := "0 KB/s"
    filename := none
    error := none
    platform := platform
    media_type := media_type
    start_time := now
    last_update := now }

/-! ### `update_job_progress` (`src/app.py` lines 76-108) -/

/-- The keyword arguments of `update_job_progress`.  `none` models an absent
(`None`) argument; `status` is the required positional argument, written to
the record only when truthy (non-empty), mirroring `if status:`. -/
structure UpdateArgs where
  status : String
  percent : Option Int := none
  downloaded_bytes : Option Int := none
  total_bytes : Option Int := none
  speed : Option String := none
  filename : Option String := none
  error : Option String := none
deriving DecidableEq

/-- Renders `num/den` with one decimal digit.  Models the `f"{x:.1f}"`
formatting of a non-negative float by integer truncation (the float version
rounds the last digit; no theorem below depends on the digits). -/
def one_decimal (num den : Int) : String :=
  let tenths := num * 10 / den
  toString (tenths / 10) ++ "." ++ toString (tenths % 10)

/-- The derived-speed string computed at the end of `update_job_progress`
(lines 101-108): MB/s when `downloaded/elapsed` exceeds 1 MiB/s, else KB/s. -/
def derived_speed (downloaded elapsed : Int) : String :=
  if downloaded > 1024 * 1024 * elapsed then
    one_decimal downloaded (1024 * 1024 * elapsed) ++ " MB/s"
  else
    one_decimal downloaded (1024 * elapsed) ++ " KB/s"

/-- `update_job_progress` acting on a present record (`src/app.py`
lines 82-108): each provided field overwrites the old one, `last_update`
is always advanced, and `speed` is recomputed from `start_time` whenever
`downloaded_bytes` is provided and elapsed time is positive. -/
def update_job_progress (j : Job) (a : UpdateArgs) (now : Int) : Job :=
  let speed1 := match a.speed with
    | some s => s
    | none => j.speed
  let speed2 := match a.downloaded_bytes with
    | some d => if now - j.start_time > 0 then derived_speed d (now - j.start_time) else speed1
    | none => speed1
  { status := if a.status = "" then j.status else a.status
    percent := a.percent.getD j.percent
    downloaded_bytes := a.downloaded_bytes.getD j.downloaded_bytes
    total_bytes := a.total_bytes.getD j.total_bytes
    speed := speed2
    filename := match a.filename with | some f => some f | none => j.filename
    error := match a.error with | some e => some e | none => j.error
    platform := j.platform
    media_type := j.media_type
    start_time := j.start_time
    last_update := now }

/-- Store-level `update_job_progress`: the whole body runs under
`if job_id in JOBS` (line 81), so an unknown id leaves `JOBS` untouched. -/
def updateStore (st : Store) (jid : String) (a : UpdateArgs) (now : Int) : Store :=
  match st jid with
  | none => st
  | some j => fun s => if s = jid then some (update_job_progress j a now) else st s

/-- A sequence of `update_job_progress` calls applied to one record
(each paired with the wall-clock instant of the call). -/
def applyUpdates (j : Job) : List (UpdateArgs × Int) → Job
  | [] => j
  | (a, t) :: rest => applyUpdates (update_job_progress j a t) rest

example :
    (update_job_progress (createJob "youtube" "Video" 0)
      { status := "downloading", percent := some 150 } 1).percent = 150 := by decide

example :
    (applyUpdates (createJob "youtube" "Video" 0)
      [({ status := "downloading", percent := some 50 }, 1),
       ({ status := "downloading", percent := some 30 }, 2)]).percent = 30 := by decide

/-! ### The yt-dlp progress hook (`create_ydl_progress_hook`, lines 226-271) -/

/-- The fields of the dict `d` the engine passes to the hook.  Byte counts and
speed come from yt-dlp as numbers (modelled `Int`); absent keys are `none`. -/
structure HookDict where
  status : String
  total_bytes : Option Int := none
  total_bytes_estimate : Option Int := none
  downloaded_bytes : Option Int := none
  speed : Option Int := none
  error : Option String := none
deriving DecidableEq

/-- Python truthiness of an optional number: `None` and `0` are falsy. -/
def truthyOptInt : Option Int → Bool
  | some n => n ≠ 0
  | none => false

/-- Python `a or b` on optional numbers (used for
`d.get("total_bytes") or d.get("total_bytes_estimate")`, line 235). -/
def pyOrInt (x y : Option Int) : Option Int :=
  if truthyOptInt x then x else y

/-- The hook speed string (lines 239-245): MB/s above 1 MiB/s, else KB/s. -/
def format_speed (s : Int) : String :=
  if s > 1024 * 1024 then one_decimal s (1024 * 1024) ++ " MB/s"
  else one_decimal s 1024 ++ " KB/s"

/-- The `update_job_progress` call one hook invocation makes, if any
(lines 232-269).  `none` means the hook returns without updating (unknown
`d["status"]`).  The current record `j` is read only by the fallback branch
(`JOBS[job_id].get("percent", 20)`, line 257; the record is present, so the
default is irrelevant).  `int(downloaded * 100 / total)` is modelled by
integer division, which agrees with float-division-then-`int` on byte
counts. -/
def hook_args (j : Job) (d : HookDict) : Option UpdateArgs :=
  if d.status = "downloading" then
    let total := pyOrInt d.total_bytes d.total_bytes_estimate
    let downloaded := d.downloaded_bytes
    let speed_str : Option String := match d.speed with
      | some s => if s ≠ 0 then some (format_speed s) else none
      | none => none
    if truthyOptInt total ∧ truthyOptInt downloaded then
      let t := total.getD 0
      let dl := downloaded.getD 0
      let pct := dl * 100 / t
      let adjusted := max 20 (min 90 pct)
      some { status := "downloading", percent := some adjusted,
             downloaded_bytes := some dl, total_bytes := some t, speed := speed_str }
    else if truthyOptInt downloaded then
      some { status := "downloading", downloaded_bytes := downloaded, speed := speed_str }
    else
      some { status := "downloading", percent := some (min 85 (j.percent + 1)), speed := speed_str }
  else if d.status = "finished" then
    some { status := "processing", percent := some 92 }
  else if d.status = "postprocessing" then
    some { status := "processing", percent := some 95 }
  else if d.status = "error" then
    some { status := "error", error := some (d.error.getD "Unknown error") }
  else
    none

/-- One hook invocation acting on the (present) record of its job
(lines 228-271). -/
def ydl_hook_apply (j : Job) (d : HookDict) (now : Int) : Job :=
  match hook_args j d with
  | some a => update_job_progress j a now
  | none => j

/-- Store-level hook: `if job_id not in JOBS: return` (line 229). -/
def ydl_hook (st : Store) (jid : String) (d : HookDict) (now : Int) : Store :=
  match st jid with
  | none => st
  | some j => fun s => if s = jid then some (ydl_hook_apply j d now) else st s

example :
    (ydl_hook_apply (createJob "youtube" "Video" 0)
      { status := "downloading", total_bytes := some 1000000,
        downloaded_bytes := some 500000 } 1).percent = 50 := by decide

example :
    (ydl_hook_apply (createJob "youtube" "Video" 0)
      { status := "downloading", total_bytes := some 1000000,
        downloaded_bytes := some 990000 } 1).percent = 90 := by decide

/-! ### URL validation of `POST /download` (lines 30-61 and 449-489) -/

/-- `sanitize_url` (lines 30-34): strip whitespace, rewrite a leading
`x+https?://` to `https://`. -/
def sanitize_url (url : String) : String :=
  let u := stripStr url
  let k := (u.data.takeWhile (fun c => c = 'x')).length
  if k = 0 then u
  else
    let rest := String.mk (u.data.drop k)
    if strStartsWith rest "https://" then "https://" ++ String.mk (rest.data.drop 8)
    else if strStartsWith rest "http://" then "https://" ++ String.mk (rest.data.drop 7)
    else u

/-- `detect_platform` (lines 44-61): case-insensitive substring containment
anywhere in the URL, first match in source order. -/
def detect_platform (url : String) : String :=
  let u := lowerStr url
  if strContains u "instagram.com" then "instagram"
  else if strContains u "facebook.com" ∨ strContains u "fb.watch" ∨ strContains u "fb.com" then "facebook"
  else if strContains u "youtube.com" ∨ strContains u "youtu.be" then "youtube"
  else if strContains u "twitter.com" ∨ strContains u "x.com" ∨ strContains u "t.co" then "twitter"
  else if strContains u "linkedin.com" then "linkedin"
  else if strContains u "snapchat.com" ∨ strContains u "snap.com" then "snapchat"
  else "unknown"

/-- A JSON error/response body together with the HTTP status code. -/
structure HttpResponse where
  statusCode : Int
  body_status : String
  message : String
deriving DecidableEq

/-- Result of the validation prologue of `download` (lines 454-489): either an
early 400 return, or the values with which the job record is then created. -/
inductive DownloadOutcome where
  | rejected (resp : HttpResponse)
  | accepted (platform media_type : String)
deriving DecidableEq

/-- The validation prologue of `download` (lines 454-472), run before any
`JOBS` entry exists.  `mediaType` is the optional JSON field
(`data.get("mediaType", "Video")`, line 456). -/
def validate_download_request (raw_url : String) (mediaType : Option String) : DownloadOutcome :=
  let url := sanitize_url raw_url
  let media_type := mediaType.getD "Video"
  if url = "" then
    .rejected { statusCode := 400, body_status := "error", message := "URL is required" }
  else if ¬ (strStartsWith url "http://" ∨ strStartsWith url "https://") then
    .rejected { statusCode := 400, body_status := "error",
                message := "Invalid URL format. URL must start with http:// or https://" }
  else
    let platform := detect_platform url
    if platform = "unknown" then
      .rejected { statusCode := 400, body_status := "error",
                  message := "Unsupported platform. Please use Instagram, Facebook, YouTube, Twitter/X, LinkedIn, or Snapchat URLs." }
    else
      .accepted platform media_type

/-- Validation followed by job creation (lines 454-489): a rejection returns
before `JOBS` is touched; acceptance inserts the fresh record. -/
def download_validate_and_create (st : Store) (raw_url : String) (mediaType : Option String)
    (jid : String) (now : Int) : Store × Option HttpResponse :=
  match validate_download_request raw_url mediaType with
  | .rejected r => (st, some r)
  | .accepted platform media_type =>
      ((fun s => if s = jid then some (createJob platform media_type now) else st s), none)

/-- Hostname of a URL in the sense of `urllib.parse.urlparse(url).hostname`,
written from the spec sentence "maps to a supported platform (by hostname
match against a fixed known set)" to state claim C4; the source never
extracts a hostname. -/
def spec_hostname (url : String) : String :=
  let cs := url.data
  let afterScheme := (afterSub cs "://".data).getD cs
  let netloc := afterScheme.takeWhile (fun c => c ≠ '/' ∧ c ≠ '?' ∧ c ≠ '#')
  let afterAt := (afterSub netloc ['@']).getD netloc
  let host := afterAt.takeWhile (fun c => c ≠ ':')
  lowerStr (String.mk host)

/-- The fixed set of supported-platform hosts named by the source's
substring checks (lines 48-59). -/
def knownHostnames : List String :=
  ["instagram.com", "facebook.com", "fb.watch", "fb.com", "youtube.com", "youtu.be",
   "twitter.com", "x.com", "t.co", "linkedin.com", "snapchat.com", "snap.com"]

/-- Hostname membership in the known set (a host matches a known domain when
it equals it or is one of its subdomains). -/
def hostnameMatchesKnown (h : String) : Bool :=
  knownHostnames.any (fun k => h = k || strEndsWith h ("." ++ k))

example : detect_platform "https://evil.example/a?ref=youtube.com" = "youtube" := by decide
example : hostnameMatchesKnown (spec_hostname "https://evil.example/a?ref=youtube.com") = false := by decide
example : sanitize_url "xxxhttp://youtu.be/a" = "https://youtu.be/a" := by decide

/-! ### Metadata-probe failure handling (`download`, lines 503-522 and 640-667) -/

/-- A Python exception as the handlers of `download` distinguish them:
`yt_dlp.utils.DownloadError` versus everything else (`Exception`). -/
inductive PyExc where
  | downloadError (msg : String)
  | generic (msg : String)
deriving DecidableEq

/-- The `except Exception as extract_error` clause around
`ydl.extract_info(url, download=False)` (lines 509-522): every probe failure,
whatever its original class, is re-raised as a plain `Exception` whose message
is chosen by substring inspection. -/
def probe_fail_exc (platform error_msg : String) : PyExc :=
  let m := lowerStr error_msg
  if strContains m "private" then
    .generic "This content is private and cannot be downloaded"
  else if strContains m "not available" ∨ strContains m "unavailable" then
    .generic "This content is not available or has been removed"
  else if strContains m "login" ∨ strContains m "sign in" then
    .generic "This content requires login. Please use public content."
  else if strContains m "unsupported url" then
    .generic ("This URL is not supported for " ++ platform)
  else
    .generic ("Cannot access this content: " ++ error_msg)

/-- The two outer handlers of `download` (lines 640-667): a
`yt_dlp.utils.DownloadError` gets a friendlier message and HTTP 400, any
other exception is answered verbatim with HTTP 500. -/
def download_exc_response (e : PyExc) : HttpResponse :=
  match e with
  | .downloadError msg =>
      let m := lowerStr msg
      let friendly :=
        if strContains m "private" then "This content is private and cannot be downloaded"
        else if strContains m "not available" ∨ strContains m "video unavailable" then
          "This content is not available or has been removed"
        else if strContains m "login" ∨ strContains m "sign in" then
          "This content requires login and cannot be downloaded"
        else if strContains m "unsupported url" then "This URL format is not supported"
        else msg
      { statusCode := 400, body_status := "error", message := friendly }
  | .generic msg => { statusCode := 500, body_status := "error", message := msg }

/-- End-to-end response of `POST /download` when the metadata probe raises
with message `error_msg`: the inner clause re-raises (lines 509-522) and the
raised exception then reaches the outer handlers (lines 640-667). -/
def download_probe_failure_response (platform error_msg : String) : HttpResponse :=
  download_exc_response (probe_fail_exc platform error_msg)

/-- A probe-failure message recognized by the classification categories named
in the spec (private / unavailable / login-required / unsupported-URL); the
predicate mirrors the substrings the source inspects (lines 513-519). -/
def recognized_probe_message (m : String) : Bool :=
  let l := lowerStr m
  strContains l "private" || strContains l "not available" || strContains l "unavailable" ||
    strContains l "login" || strContains l "sign in" || strContains l "unsupported url"

example : (download_probe_failure_response "youtube" "This video is private").statusCode = 500 := by decide

/-! ### `make_ydl_opts` (lines 274-360) and the photo/engine branch of `download` (line 530) -/

/-- The option fields of the yt-dlp options dict that depend on the media
type and the platform (the constant base options are omitted). -/
structure YdlOpts where
  format : String
  merge_output_format : Option String := none
  extract_audio_postprocessor : Bool := false
  writethumbnail : Bool := false
  skip_download : Bool := false
deriving DecidableEq

/-- `make_ydl_opts` (lines 274-360): audio variants get the audio extractor,
`photo` gets `skip_download`, everything else takes the per-platform video
branch. -/
def make_ydl_opts (media_type platform : String) : YdlOpts :=
  let m := lowerStr media_type
  if m = "audio" ∨ m = "audio only" ∨ m = "audio-only" then
    { format := "bestaudio/best", extract_audio_postprocessor := true }
  else if m = "photo" then
    { format := "best", writethumbnail := true, skip_download := true }
  else if platform = "youtube" then
    { format := "bestvideo[ext=mp4]+bestaudio[ext=m4a]/bestvideo+bestaudio/best",
      merge_output_format := some "mp4" }
  else if platform = "facebook" then
    { format := "best", merge_output_format := some "mp4" }
  else if platform = "twitter" then { format := "best" }
  else if platform = "instagram" then { format := "best" }
  else if platform = "linkedin" then { format := "best" }
  else if platform = "snapchat" then { format := "best" }
  else
    { format := "bestvideo+bestaudio/best", merge_output_format := some "mp4" }

/-- The per-platform format string of the video branch (lines 321-358). -/
def video_format (platform : String) : String :=
  if platform = "youtube" then "bestvideo[ext=mp4]+bestaudio[ext=m4a]/bestvideo+bestaudio/best"
  else if platform = "facebook" ∨ platform = "twitter" ∨ platform = "instagram" ∨
      platform = "linkedin" ∨ platform = "snapchat" then "best"
  else "bestvideo+bestaudio/best"

/-- `merge_output_format` of the video branch (lines 321-358). -/
def video_merge_format (platform : String) : Option String :=
  if platform = "youtube" ∨ platform = "facebook" then some "mp4"
  else if platform = "twitter" ∨ platform = "instagram" ∨ platform = "linkedin" ∨
      platform = "snapchat" then none
  else some "mp4"

/-- Which handling branch the body of `download` takes (line 530):
`media_type.lower() == "photo"` selects direct image fetch, everything else
is delegated to the engine (`ydl.extract_info(url, download=True)`). -/
inductive ControllerBranch where
  | photo
  | engineDownload
deriving DecidableEq

/-- The controller branch decision of `download` (line 530). -/
def controller_branch (media_type : String) : ControllerBranch :=
  if lowerStr media_type = "photo" then .photo else .engineDownload

example : make_ydl_opts "Video" "snapchat" = { format := "best" } := by decide
example : controller_branch "Video" = .engineDownload := by decide

/-! ### `find_downloaded_file` (lines 363-418) -/

/-- The download directory as the code observes it: the listed paths with
their creation times (`os.path.getctime`).  `exists?` is `os.path.exists`. -/
structure FS where
  files : List (String × Int)

/-- `os.path.exists` on the modelled directory. -/
def FS.pathExists (fs : FS) (p : String) : Bool :=
  fs.files.any (fun e => e.1 = p)

/-- `os.path.getctime` (0 for a path outside the listing; the code only
queries listed paths). -/
def FS.getctime (fs : FS) (p : String) : Int :=
  match fs.files.find? (fun e => e.1 = p) with
  | some e => e.2
  | none => 0

/-- Index of the last occurrence of `c` in `s`, or `-1` (Python `s.rfind(c)`). -/
def rfindIdx (s : List Char) (c : Char) : Int :=
  (List.range s.length).foldl
    (fun acc i => if s.get? i = some c then (i : Int) else acc) (-1)

/-- `os.path.splitext` (posix separators): split off the final dot-suffix of
the basename, except when the basename consists only of leading dots. -/
def splitext (p : String) : String × String :=
  let cs := p.data
  let sepIndex := rfindIdx cs '/'
  let dotIndex := rfindIdx cs '.'
  if dotIndex > sepIndex then
    let namePart := (cs.drop (sepIndex + 1).toNat).take (dotIndex - sepIndex - 1).toNat
    if namePart.any (fun ch => ch ≠ '.') then
      (String.mk (cs.take dotIndex.toNat), String.mk (cs.drop dotIndex.toNat))
    else (p, "")
  else (p, "")

/-- The kind-specific candidate extension lists (lines 380-385), in source
order. -/
def extensions_for (media_type : String) : List String :=
  let m := lowerStr media_type
  if m = "audio" ∨ m = "audio only" ∨ m = "audio-only" then
    [".mp3", ".m4a", ".opus", ".ogg", ".wav", ".aac"]
  else if m = "photo" then
    [".jpg", ".jpeg", ".png", ".webp", ".gif"]
  else
    [".mp4", ".mkv", ".webm", ".mov", ".avi", ".flv"]

/-- The extension-fallback loop (lines 388-392): first existing `base+ext`
in priority order. -/
def firstExistingExt (fs : FS) (base : String) : List String → Option String
  | [] => none
  | e :: rest =>
    if fs.pathExists (base ++ e) then some (base ++ e) else firstExistingExt fs base rest

/-- Python `max(files, key=os.path.getctime)`: the first file attaining the
maximal creation time. -/
def maxByCtime (fs : FS) : List String → Option String
  | [] => none
  | f :: rest =>
      some (rest.foldl (fun best g => if fs.getctime g > fs.getctime best then g else best) f)

/-- `find_downloaded_file` (lines 363-418) over the modelled directory:
(1) the prepared path itself when it exists, (2) `base+ext` for the first
kind-matching extension on disk, (3) the most recently created kind-matching
file of the last 120 seconds.  `now` is `time.time()` at the recency filter. -/
def find_downloaded_file (fs : FS) (now : Int) (prepared_path media_type : String) : Option String :=
  let extensions := extensions_for media_type
  if prepared_path ≠ "" ∧ fs.pathExists prepared_path then some prepared_path
  else
    let fromBase : Option String :=
      if prepared_path ≠ "" then
        firstExistingExt fs (splitext prepared_path).1 extensions
      else none
    match fromBase with
    | some c => some c
    | none =>
        let all_files := fs.files.map Prod.fst
        let filtered_files := all_files.filter
          (fun f => extensions.contains (lowerStr (splitext f).2))
        let recent_files := filtered_files.filter (fun f => now - fs.getctime f < 120)
        match recent_files with
        | [] => none
        | _ => maxByCtime fs recent_files

example :
    find_downloaded_file
      ⟨[("/dl/song_x.mp3", 10), ("/dl/song_x.m4a", 11)]⟩ 50 "/dl/song_x.webm" "audio"
      = some "/dl/song_x.mp3" := by decide

example :
    find_downloaded_file ⟨[("/dl/a.mp4", 10)]⟩ 50 "/dl/a.mp4" "Video" = some "/dl/a.mp4" := by
  decide

/-! ### The Reaper (`cleanup_old_jobs`, lines 826-841) -/

/-- One sweep of `cleanup_old_jobs` (lines 830-841): delete every record in a
terminal status whose `start_time` lies strictly more than 3600 seconds in
the past.  The two-pass collect-then-delete of the source is equivalent to
this pointwise filter because the predicate reads only the record itself. -/
def cleanup_old_jobs (st : Store) (now : Int) : Store :=
  fun id =>
    match st id with
    | none => none
    | some j =>
        if (j.status = "done" ∨ j.status = "error") ∧ now - j.start_time > 3600 then none
        else some j

/-! ### The SSE stream (`progress` endpoint, lines 670-756) -/

/-- `get_status_message` (lines 759-776). -/
def get_status_message (status : String) (percent : Int) : String :=
  if status = "queued" then "Waiting to start..."
  else if status = "starting" then "Starting download..."
  else if status = "extracting info" then "Extracting media information..."
  else if status = "preparing" then "Preparing download..."
  else if status = "downloading" then "Downloading... " ++ toString percent ++ "%"
  else if status = "processing" then "Processing media file..."
  else if status = "finding file" then "Finalizing download..."
  else if status = "done" then "Download complete!"
  else if status = "error" then "An error occurred"
  else "Processing... " ++ toString percent ++ "%"

/-- The `estimated_time` computation of the stream loop (lines 706-716),
with `elapsed = now - job.start_time` in whole seconds.  Python divides
floats and truncates with `int(...)`; integer division models this for the
non-negative quantities involved. -/
def estimated_time_str (elapsed percent : Int) : Option String :=
  if 0 < percent ∧ percent < 100 then
    if elapsed > 0 ∧ percent > 5 then
      let total_estimated := elapsed * 100 / percent
      let remaining := total_estimated - elapsed
      if remaining > 0 then
        if remaining > 60 then
          some (toString (remaining / 60) ++ "m " ++ toString (remaining % 60) ++ "s")
        else some (toString remaining ++ "s")
      else none
    else none
  else none

/-- The payload built on every loop iteration (lines 718-728). -/
structure SSEPayload where
  status : String
  percent : Int
  downloaded_bytes : Int
  total_bytes : Int
  speed : String
  filename : Option String
  error : Option String
  estimated_time : Option String
  message : String
deriving DecidableEq

/-- The initial snapshot (lines 686-695); it carries no `estimated_time` key
and its `message` is non-null only for status `starting`. -/
structure SSEInitPayload where
  status : String
  percent : Int
  downloaded_bytes : Int
  total_bytes : Int
  speed : String
  filename : Option String
  error : Option String
  message : Option String
deriving DecidableEq

/-- `last_sent` holds the serialized text of whichever payload was sent last;
the two payload shapes serialize differently (the loop payload always has an
`estimated_time` key), so equality across the two constructors is false,
exactly as for the JSON strings. -/
inductive SentPayload where
  | init (p : SSEInitPayload)
  | loop (p : SSEPayload)
deriving DecidableEq

/-- One event written to the stream (`yield "data: ..."`). -/
inductive SSEEvent where
  | jobNotFound
  | initial (p : SSEInitPayload)
  | update (p : SSEPayload)
  | timeout
deriving DecidableEq

/-- The loop payload of one iteration (lines 706-728). -/
def mk_loop_payload (j : Job) (now : Int) : SSEPayload :=
  { status := j.status
    percent := j.percent
    downloaded_bytes := j.downloaded_bytes
    total_bytes := j.total_bytes
    speed := j.speed
    filename := j.filename
    error := j.error
    estimated_time := estimated_time_str (now - j.start_time) j.percent
    message := get_status_message j.status j.percent }

/-- The initial snapshot payload (lines 686-695). -/
def mk_init_payload (j : Job) : SSEInitPayload :=
  { status := j.status
    percent := j.percent
    downloaded_bytes := j.downloaded_bytes
    total_bytes := j.total_bytes
    speed := j.speed
    filename := j.filename
    error := j.error
    message := if j.status = "starting" then some "Starting download..." else none }

/-- The polling loop of `event_stream` (lines 699-754).  `stores k` is the
`JOBS` map observed by the k-th poll and `times k` the wall clock at that
poll (the source reads both afresh each iteration; the 0.3 s sleep between
iterations is part of the clock model).  `fuel` cuts the unbounded `while
True`; the loop also exits by itself on job loss, terminal status, or the
600 s timeout. -/
def progress_loop (stores : Nat → Store) (times : Nat → Int) (jid : String) :
    Nat → Nat → SentPayload → Int → Int → List SSEEvent
  | 0, _, _, _, _ => []
  | fuel + 1, k, last_sent, last_progress_time, stream_start =>
    match stores k jid with
    | none => [.jobNotFound]
    | some j =>
        let now := times k
        let payload := mk_loop_payload j now
        let emit := SentPayload.loop payload ≠ last_sent ∨ now - last_progress_time > 1
        let sent : List SSEEvent := if emit then [.update payload] else []
        let last_sent' := if emit then SentPayload.loop payload else last_sent
        let last_progress' := if emit then now else last_progress_time
        if j.status = "done" ∨ j.status = "error" then
          let finalPayload :=
            if j.status = "done" then
              { payload with percent := 100, message := "Download complete!" }
            else payload
          sent ++ [.update finalPayload]
        else if now - stream_start > 600 then
          sent ++ [.timeout]
        else
          sent ++ progress_loop stores times jid fuel (k + 1) last_sent' last_progress' stream_start

/-- `event_stream` (lines 673-754): an unknown job id yields a single error
event and returns; otherwise the initial snapshot is emitted and the polling
loop runs. -/
def event_stream (stores : Nat → Store) (times : Nat → Int) (jid : String) (fuel : Nat) :
    List SSEEvent :=
  match stores 0 jid with
  | none => [.jobNotFound]
  | some j =>
      .initial (mk_init_payload j) ::
        progress_loop stores times jid fuel 0 (.init (mk_init_payload j)) (times 0) (times 0)

example :
    event_stream (fun _ => (fun _ => none)) (fun _ => 0) "nope" 7 = [.jobNotFound] := rfl

/-! ### Reachable write sequences of one job record

The `download` controller performs a fixed sequence of
`update_job_progress` calls (lines 498-625), with the engine-driven hook
firing arbitrarily often while `ydl.extract_info(url, download=True)` runs,
the photo branch performing its own writes (lines 111-191), and any caught
exception after creation producing the handlers' error write
(lines 640-667).  `Reach ph j` says the record value `j` is producible at
control point `ph` by some such sequence.  Write ordering inside the photo
phase is relaxed (a superset of the source's traces); the video path is
modelled write-for-write. -/

/-- Arguments of a plain phase write `update_job_progress(id, s, p)`. -/
def statusArgs (s : String) (p : Int) : UpdateArgs :=
  { status := s, percent := some p }

/-- Arguments of the handlers' error write
(`update_job_progress(id, "error", error=msg)`). -/
def errorArgs (msg : String) : UpdateArgs :=
  { status := "error", error := some msg }

/-- Arguments of the finalization write
(`update_job_progress(id, "done", 100, filename=fn)`, line 625). -/
def doneArgs (fn : String) : UpdateArgs :=
  { status := "done", percent := some 100, filename := some fn }

/-- Control points of the `download` request handler at which the record is
observed between writes. -/
inductive PhasePt where
  | queued
  | started
  | extracting
  | extracted
  | photoPhase
  | engineDl
  | found
  | finishedOk
  | failed
deriving DecidableEq

/-- Record values reachable at each control point (see section comment). -/
inductive Reach : PhasePt → Job → Prop where
  | create (platform media_type : String) (t : Int) :
      Reach .queued (createJob platform media_type t)
  | start {j : Job} (t : Int) :
      Reach .queued j → Reach .started (update_job_progress j (statusArgs "starting" 10) t)
  | extract20 {j : Job} (t : Int) :
      Reach .started j →
      Reach .extracting (update_job_progress j (statusArgs "extracting info" 20) t)
  | extract35 {j : Job} (t : Int) :
      Reach .extracting j →
      Reach .extracted (update_job_progress j (statusArgs "extracting info" 35) t)
  | photo50 {j : Job} (t : Int) :
      lowerStr j.media_type = "photo" → Reach .extracted j →
      Reach .photoPhase (update_job_progress j (statusArgs "downloading" 50) t)
  | photo60 {j : Job} (t : Int) :
      Reach .photoPhase j →
      Reach .photoPhase (update_job_progress j (statusArgs "downloading" 60) t)
  | photo70 {j : Job} (t : Int) :
      Reach .photoPhase j →
      Reach .photoPhase (update_job_progress j (statusArgs "downloading" 70) t)
  | photo80 {j : Job} (tot t : Int) :
      Reach .photoPhase j →
      Reach .photoPhase (update_job_progress j
        { status := "downloading", percent := some 80,
          downloaded_bytes := some 0, total_bytes := some tot } t)
  | photoChunk {j : Job} (dl tot t : Int) :
      tot > 0 → Reach .photoPhase j →
      Reach .photoPhase (update_job_progress j
        { status := "downloading", percent := some (80 + dl * 100 / tot * 15 / 100),
          downloaded_bytes := some dl, total_bytes := some tot } t)
  | photo95 {j : Job} (t : Int) :
      Reach .photoPhase j →
      Reach .photoPhase (update_job_progress j (statusArgs "downloading" 95) t)
  | photoMismatch {j : Job} (t : Int) :
      Reach .photoPhase j →
      Reach .failed (update_job_progress j
        (errorArgs "This URL contains a video, not a photo") t)
  | prepare45 {j : Job} (t : Int) :
      lowerStr j.media_type ≠ "photo" → Reach .extracted j →
      Reach .engineDl (update_job_progress j (statusArgs "preparing" 45) t)
  | hookEvent {j : Job} (d : HookDict) (t : Int) :
      Reach .engineDl j → Reach .engineDl (ydl_hook_apply j d t)
  | finding90 {j : Job} (t : Int) :
      Reach .engineDl j →
      Reach .found (update_job_progress j (statusArgs "finding file" 90) t)
  | doneVideo {j : Job} (fn : String) (t : Int) :
      Reach .found j → Reach .finishedOk (update_job_progress j (doneArgs fn) t)
  | donePhoto {j : Job} (fn : String) (t : Int) :
      Reach .photoPhase j → Reach .finishedOk (update_job_progress j (doneArgs fn) t)
  | fail {ph : PhasePt} {j : Job} (msg : String) (t : Int) :
      ph ≠ .finishedOk → ph ≠ .failed → Reach ph j →
      Reach .failed (update_job_progress j (errorArgs msg) t)

/-! Projection lemmas for `update_job_progress`. -/

lemma upd_status (j : Job) (a : UpdateArgs) (t : Int) :
    (update_job_progress j a t).status = if a.status = "" then j.status else a.status := rfl

lemma upd_filename (j : Job) (a : UpdateArgs) (t : Int) :
    (update_job_progress j a t).filename =
      match a.filename with | some f => some f | none => j.filename := rfl

lemma upd_error (j : Job) (a : UpdateArgs) (t : Int) :
    (update_job_progress j a t).error =
      match a.error with | some e => some e | none => j.error := rfl

lemma upd_percent (j : Job) (a : UpdateArgs) (t : Int) :
    (update_job_progress j a t).percent = a.percent.getD j.percent := rfl

lemma upd_media_type (j : Job) (a : UpdateArgs) (t : Int) :
    (update_job_progress j a t).media_type = j.media_type := rfl

/-- The record invariant carried through `Reach`: a finalized phase means a
`done` status with a populated filename; anywhere else the filename is still
unset and the status is not `done`; and a status of `error` always comes
with a populated error message. -/
def strongInv (ph : PhasePt) (j : Job) : Prop :=
  (ph = PhasePt.finishedOk → j.status = "done" ∧ j.filename.isSome = true) ∧
  (ph ≠ PhasePt.finishedOk → j.filename = none ∧ j.status ≠ "done") ∧
  (j.status = "error" → j.error.isSome = true)

lemma strongInv_nonterminal_write {ph ph' : PhasePt} {j : Job} (a : UpdateArgs) (t : Int)
    (hs : a.status ≠ "") (hsd : a.status ≠ "done") (hse : a.status ≠ "error")
    (hf : a.filename = none)
    (hph' : ph' ≠ PhasePt.finishedOk) (hph : ph ≠ PhasePt.finishedOk)
    (ih : strongInv ph j) : strongInv ph' (update_job_progress j a t) := by
  obtain ⟨_, h2, _⟩ := ih
  have hfn : (update_job_progress j a t).filename = j.filename := by
    rw [upd_filename, hf]
  have hst : (update_job_progress j a t).status = a.status := by
    rw [upd_status, if_neg hs]
  refine ⟨fun hbad => absurd hbad hph', fun _ => ⟨?_, ?_⟩, ?_⟩
  · rw [hfn]; exact (h2 hph).1
  · rw [hst]; exact hsd
  · rw [hst]; intro hbad; exact absurd hbad hse

lemma strongInv_error_write {ph ph' : PhasePt} {j : Job} (msg : String) (t : Int)
    (hph' : ph' ≠ PhasePt.finishedOk) (hph : ph ≠ PhasePt.finishedOk)
    (ih : strongInv ph j) : strongInv ph' (update_job_progress j (errorArgs msg) t) := by
  obtain ⟨_, h2, _⟩ := ih
  have hfn : (update_job_progress j (errorArgs msg) t).filename = j.filename := rfl
  have hst : (update_job_progress j (errorArgs msg) t).status = "error" := rfl
  have herr : (update_job_progress j (errorArgs msg) t).error = some msg := rfl
  refine ⟨fun hbad => absurd hbad hph', fun _ => ⟨?_, ?_⟩, fun _ => ?_⟩
  · rw [hfn]; exact (h2 hph).1
  · rw [hst]; decide
  · rw [herr]; rfl

lemma strongInv_done_write {j : Job} (fn : String) (t : Int) :
    strongInv PhasePt.finishedOk (update_job_progress j (doneArgs fn) t) := by
  have hst : (update_job_progress j (doneArgs fn) t).status = "done" := rfl
  have hfn : (update_job_progress j (doneArgs fn) t).filename = some fn := rfl
  refine ⟨fun _ => ⟨hst, by rw [hfn]; rfl⟩, fun hbad => absurd rfl hbad, fun hbad => ?_⟩
  rw [hst] at hbad; exact absurd hbad (by decide)

lemma hook_args_shape (j : Job) (d : HookDict) :
    hook_args j d = none ∨
      ∃ a, hook_args j d = some a ∧ a.filename = none ∧
        (a.status = "downloading" ∨ a.status = "processing" ∨
          (a.status = "error" ∧ a.error.isSome = true)) := by
  unfold hook_args
  dsimp only
  split_ifs
  · exact Or.inr ⟨_, rfl, rfl, Or.inl rfl⟩
  · exact Or.inr ⟨_, rfl, rfl, Or.inl rfl⟩
  · exact Or.inr ⟨_, rfl, rfl, Or.inl rfl⟩
  · exact Or.inr ⟨_, rfl, rfl, Or.inr (Or.inl rfl)⟩
  · exact Or.inr ⟨_, rfl, rfl, Or.inr (Or.inl rfl)⟩
  · exact Or.inr ⟨_, rfl, rfl, Or.inr (Or.inr ⟨rfl, rfl⟩)⟩
  · exact Or.inl rfl

lemma strongInv_hook {j : Job} (d : HookDict) (t : Int)
    (ih : strongInv PhasePt.engineDl j) :
    strongInv PhasePt.engineDl (ydl_hook_apply j d t) := by
  rcases hook_args_shape j d with hnone | ⟨a, ha, hf, hst⟩
  · unfold ydl_hook_apply; rw [hnone]; exact ih
  · obtain ⟨_, h2, _⟩ := ih
    have hj : ydl_hook_apply j d t = update_job_progress j a t := by
      unfold ydl_hook_apply; rw [ha]
    rw [hj]
    have hfn : (update_job_progress j a t).filename = j.filename := by
      rw [upd_filename, hf]
    have hne : (PhasePt.engineDl : PhasePt) ≠ PhasePt.finishedOk := by decide
    have hsne : a.status ≠ "" := by
      rcases hst with h | h | ⟨h, _⟩ <;> rw [h] <;> decide
    have hstv : (update_job_progress j a t).status = a.status := by
      rw [upd_status, if_neg hsne]
    refine ⟨fun hbad => absurd hbad hne, fun _ => ⟨?_, ?_⟩, fun herr => ?_⟩
    · rw [hfn]; exact (h2 hne).1
    · rw [hstv]; rcases hst with h | h | ⟨h, _⟩ <;> rw [h] <;> decide
    · rw [hstv] at herr
      rcases hst with h | h | ⟨_, hesome⟩
      · rw [h] at herr; exact absurd herr (by decide)
      · rw [h] at herr; exact absurd herr (by decide)
      · rw [upd_error]
        rcases Option.isSome_iff_exists.mp hesome with ⟨e, he⟩
        rw [he]; rfl

lemma str_downloading_ne_empty : ("downloading" : String) ≠ "" := by decide

lemma str_downloading_ne_done : ("downloading" : String) ≠ "done" := by decide

lemma str_downloading_ne_error : ("downloading" : String) ≠ "error" := by decide

/-- Every reachable record value satisfies `strongInv` at its control
point. -/
lemma reach_strongInv {ph : PhasePt} {j : Job} (h : Reach ph j) : strongInv ph j := by
  induction h with
  | create platform media_type t =>
      refine ⟨fun hbad => absurd hbad (by decide), fun _ => ⟨rfl, fun hbad => ?_⟩,
        fun hbad => ?_⟩
      · have hq : ("queued" : String) = "done" := hbad
        exact absurd hq (by decide)
      · have hq : ("queued" : String) = "error" := hbad
        exact absurd hq (by decide)
  | start t _ ih =>
      exact strongInv_nonterminal_write _ t (by decide) (by decide) (by decide) rfl
        (by decide) (by decide) ih
  | extract20 t _ ih =>
      exact strongInv_nonterminal_write _ t (by decide) (by decide) (by decide) rfl
        (by decide) (by decide) ih
  | extract35 t _ ih =>
      exact strongInv_nonterminal_write _ t (by decide) (by decide) (by decide) rfl
        (by decide) (by decide) ih
  | photo50 t _ _ ih =>
      exact strongInv_nonterminal_write _ t (by decide) (by decide) (by decide) rfl
        (by decide) (by decide) ih
  | photo60 t _ ih =>
      exact strongInv_nonterminal_write _ t (by decide) (by decide) (by decide) rfl
        (by decide) (by decide) ih
  | photo70 t _ ih =>
      exact strongInv_nonterminal_write _ t (by decide) (by decide) (by decide) rfl
        (by decide) (by decide) ih
  | photo80 tot t _ ih =>
      exact strongInv_nonterminal_write _ t str_downloading_ne_empty str_downloading_ne_done
        str_downloading_ne_error rfl (by decide) (by decide) ih
  | photoChunk dl tot t _ _ ih =>
      exact strongInv_nonterminal_write _ t str_downloading_ne_empty str_downloading_ne_done
        str_downloading_ne_error rfl (by decide) (by decide) ih
  | photo95 t _ ih =>
      exact strongInv_nonterminal_write _ t (by decide) (by decide) (by decide) rfl
        (by decide) (by decide) ih
  | photoMismatch t _ ih =>
      exact strongInv_error_write _ t (by decide) (by decide) ih
  | prepare45 t _ _ ih =>
      exact strongInv_nonterminal_write _ t (by decide) (by decide) (by decide) rfl
        (by decide) (by decide) ih
  | hookEvent d t _ ih => exact strongInv_hook d t ih
  | finding90 t _ ih =>
      exact strongInv_nonterminal_write _ t (by decide) (by decide) (by decide) rfl
        (by decide) (by decide) ih
  | doneVideo fn t _ _ => exact strongInv_done_write fn t
  | donePhoto fn t _ _ => exact strongInv_done_write fn t
  | fail msg t hph _ _ ih => exact strongInv_error_write msg t (by decide) hph ih

/-- A record is terminal when its status is `done` or `error`. -/
def jobTerminal (j : Job) : Bool :=
  j.status == "done" || j.status == "error"

/-- Exactly one of `filename` / `error` is populated. -/
def exactlyOnePopulated (j : Job) : Bool :=
  j.filename.isSome.xor j.error.isSome

/-! ## Claims -/

/-- Claim C1, as stated, is false: `update_job_progress` neither clamps the
provided percent into 0..100 nor enforces monotonicity.  Starting from a
fresh record, one update call stores percent 150 (so 150 ≤ 100 fails,
refuting the range/clamp part of the universally quantified claim). -/
theorem claim_C1_counterexample :
    ¬ (∀ (plat mt : String) (t0 : Int) (ws : List (UpdateArgs × Int)) (a : UpdateArgs) (t : Int),
        (0 ≤ (applyUpdates (createJob plat mt t0) ws).percent ∧
          (applyUpdates (createJob plat mt t0) ws).percent ≤ 100) ∧
        (applyUpdates (createJob plat mt t0) ws).percent ≤
          (applyUpdates (createJob plat mt t0) (ws ++ [(a, t)])).percent) := by
  intro h
  have h1 := (h "youtube" "Video" 0
    [({ status := "downloading", percent := some 150 }, 1)] { status := "" } 2).1.2
  exact absurd h1 (by decide)

/-- Claim C1 (amended): every write of `percent` by `update_job_progress`
stores the provided value verbatim — no clamping into 0..100 and no
monotonicity enforcement happen at the store; the only clamping in the
program is the [20,90] band inside the downloading branch of the progress
hook. -/
theorem claim_C1_amended (j : Job) (a : UpdateArgs) (t : Int) (p : Int)
    (hp : a.percent = some p) :
    (update_job_progress j a t).percent = p := by
  rw [upd_percent, hp]; rfl

/-- Witness for `claim_C1_amended` at a concrete input. -/
theorem claim_C1_amended_witness :
    (update_job_progress (createJob "youtube" "Video" 0)
      { status := "downloading", percent := some 77 } 1).percent = 77 :=
  claim_C1_amended _ _ _ _ rfl

/-- Claim C2, as stated, is false: a hook-reported error event during the
engine-delegated download (`status="error"` write, lines 267-269) followed by
the controller's normal finalization (lines 579-625) produces a reachable
terminal record with BOTH `error` and `filename` populated. -/
theorem claim_C2_counterexample :
    ¬ (∀ (ph : PhasePt) (j : Job), Reach ph j →
        (jobTerminal j = true ↔ exactlyOnePopulated j = true)) := by
  intro h
  have d7 :=
    Reach.doneVideo "f.mp4" 7
      (Reach.finding90 6
        (Reach.hookEvent { status := "error", error := some "boom" } 5
          (Reach.prepare45 4 (by decide)
            (Reach.extract35 3
              (Reach.extract20 2
                (Reach.start 1
                  (Reach.create "youtube" "Video" 0)))))))
  exact absurd ((h _ _ d7).mp (by decide)) (by decide)

/-- Claim C2 (amended): on every reachable record, a `done` status implies a
populated `filename`, an `error` status implies a populated `error` message,
and `filename` is populated only on `done` records; the full
"terminal iff exactly one populated" equivalence fails because a hook error
write can precede a successful finalization (and then both are populated). -/
theorem claim_C2_amended {ph : PhasePt} {j : Job} (h : Reach ph j) :
    (j.status = "done" → j.filename.isSome = true) ∧
    (j.status = "error" → j.error.isSome = true) ∧
    (j.filename.isSome = true → j.status = "done") := by
  obtain ⟨h1, h2, h3⟩ := reach_strongInv h
  by_cases hp : ph = PhasePt.finishedOk
  · obtain ⟨hd, hf⟩ := h1 hp
    exact ⟨fun _ => hf, h3, fun _ => hd⟩
  · obtain ⟨hfn, hnd⟩ := h2 hp
    refine ⟨fun hbad => absurd hbad hnd, h3, fun hfs => ?_⟩
    rw [hfn] at hfs
    exact absurd hfs (by decide)

/-- Witness for `claim_C2_amended` on a concrete reachable finalized
record. -/
theorem claim_C2_amended_witness :
    (update_job_progress (update_job_progress (update_job_progress (update_job_progress
        (update_job_progress (update_job_progress (createJob "youtube" "Video" 0)
            (statusArgs "starting" 10) 1)
          (statusArgs "extracting info" 20) 2)
        (statusArgs "extracting info" 35) 3)
      (statusArgs "preparing" 45) 4)
    (statusArgs "finding file" 90) 5) (doneArgs "f.mp4") 6).filename.isSome = true :=
  (claim_C2_amended
    (Reach.doneVideo "f.mp4" 6
      (Reach.finding90 5
        (Reach.prepare45 4 (by decide)
          (Reach.extract35 3
            (Reach.extract20 2
              (Reach.start 1
                (Reach.create "youtube" "Video" 0)))))))).1 (by decide)

/-- Claim C3, as stated, is false: a metadata-probe failure whose message is
recognized ("This video is private") is re-raised as a plain `Exception`
(line 514), so it reaches the generic handler (lines 659-667) and is
answered with HTTP 500, not 400. -/
theorem claim_C3_counterexample :
    ¬ (∀ (platform m : String), recognized_probe_message m = true →
        (download_probe_failure_response platform m).statusCode = 400) := by
  intro h
  exact absurd (h "youtube" "This video is private" (by decide)) (by decide)

lemma probe_fail_exc_generic (platform m : String) :
    ∃ s, probe_fail_exc platform m = PyExc.generic s := by
  unfold probe_fail_exc
  dsimp only
  split_ifs <;> exact ⟨_, rfl⟩

/-- Claim C3 (amended): every metadata-probe failure — recognized or not —
is answered with HTTP 500 and a `{status:"error", message}` body, because
the inner handler re-raises a plain `Exception` which only the generic
outer handler catches; the 400 path is reserved for `DownloadError`
exceptions that escape un-wrapped, which the probe step never produces. -/
theorem claim_C3_amended (platform m : String) :
    (download_probe_failure_response platform m).statusCode = 500 ∧
    (download_probe_failure_response platform m).body_status = "error" := by
  obtain ⟨s, hs⟩ := probe_fail_exc_generic platform m
  unfold download_probe_failure_response
  rw [hs]
  exact ⟨rfl, rfl⟩

/-- Claim C4, as stated, is false: acceptance is decided by substring
containment anywhere in the URL (`detect_platform`), not by hostname
matching, so `https://evil.example/a?ref=youtube.com` — whose hostname
`evil.example` matches no supported platform — is accepted and a job record
is created for it. -/
theorem claim_C4_counterexample :
    ¬ (∀ (raw : String) (mt : Option String) (p m : String),
        validate_download_request raw mt = DownloadOutcome.accepted p m →
        hostnameMatchesKnown (spec_hostname (sanitize_url raw)) = true) := by
  intro h
  exact absurd
    (h "https://evil.example/a?ref=youtube.com" none "youtube" "Video" (by decide))
    (by decide)

lemma dvc_rejected (raw : String) (mt : Option String) (r : HttpResponse)
    (h : validate_download_request raw mt = DownloadOutcome.rejected r) :
    ∀ (st : Store) (jid : String) (now : Int),
      download_validate_and_create st raw mt jid now = (st, some r) := by
  intro st jid now
  unfold download_validate_and_create
  rw [h]

/-- Claim C4 (amended): a request is accepted exactly when the sanitized URL
is non-empty, starts with `http://` or `https://`, and contains one of the
known platform substrings anywhere in it (substring containment, not
hostname matching); every rejection carries HTTP 400 and happens before any
job record is created (the store is returned unchanged). -/
theorem claim_C4_amended (raw : String) (mt : Option String) :
    ((∃ p, validate_download_request raw mt = DownloadOutcome.accepted p (mt.getD "Video")) ↔
      (sanitize_url raw ≠ "" ∧
        (strStartsWith (sanitize_url raw) "http://" ∨
          strStartsWith (sanitize_url raw) "https://") ∧
        detect_platform (sanitize_url raw) ≠ "unknown")) ∧
    (∀ r, validate_download_request raw mt = DownloadOutcome.rejected r →
      r.statusCode = 400 ∧
      ∀ (st : Store) (jid : String) (now : Int),
        download_validate_and_create st raw mt jid now = (st, some r)) := by
  constructor
  · unfold validate_download_request
    dsimp only
    split_ifs with h1 h2 h3
    · constructor
      · rintro ⟨p, hp⟩; exact absurd hp (by simp)
      · rintro ⟨hne, _, _⟩; exact absurd h1 hne
    · constructor
      · rintro ⟨p, hp⟩; exact absurd hp (by simp)
      · rintro ⟨_, _, hpl⟩; exact absurd h3 hpl
    · exact iff_of_true ⟨_, rfl⟩ ⟨h1, h2, h3⟩
    · constructor
      · rintro ⟨p, hp⟩; exact absurd hp (by simp)
      · rintro ⟨_, hstart, _⟩; exact absurd hstart h2
  · intro r hr
    refine ⟨?_, dvc_rejected raw mt r hr⟩
    unfold validate_download_request at hr
    dsimp only at hr
    split_ifs at hr
    · injection hr with hr; rw [← hr]
    · injection hr with hr; rw [← hr]
    · injection hr with hr; rw [← hr]

/-- Witness for `claim_C4_amended`: the empty URL is rejected with 400 and
the store is untouched. -/
theorem claim_C4_amended_witness :
    download_validate_and_create (fun _ => none) "" none "j1" 0 =
      ((fun _ => none : Store),
        some { statusCode := 400, body_status := "error", message := "URL is required" }) :=
  ((claim_C4_amended "" none).2 _ rfl).2 _ _ _

/-- Claim C5 (confirmed): every downloading-phase hook invocation with known
(truthy) total and downloaded byte counts stores
`max 20 (min 90 (downloaded*100/total))` as the record's percent — the raw
ratio clamped into the [20,90] band (lines 247-251). -/
theorem claim_C5 (j : Job) (now tot dl : Int) (spd : Option Int)
    (htot : tot ≠ 0) (hdl : dl ≠ 0) :
    (ydl_hook_apply j
      { status := "downloading", total_bytes := some tot, downloaded_bytes := some dl,
        speed := spd } now).percent = max 20 (min 90 (dl * 100 / tot)) := by
  have hT : pyOrInt (some tot) none = some tot := by
    simp [pyOrInt, truthyOptInt, htot]
  have key : hook_args j
      { status := "downloading", total_bytes := some tot, downloaded_bytes := some dl,
        speed := spd } =
      some { status := "downloading", percent := some (max 20 (min 90 (dl * 100 / tot))),
             downloaded_bytes := some dl, total_bytes := some tot,
             speed := match spd with
               | some s => if s ≠ 0 then some (format_speed s) else none
               | none => none } := by
    unfold hook_args
    dsimp only
    rw [hT]
    rw [if_pos rfl, if_pos ⟨by simp [truthyOptInt, htot], by simp [truthyOptInt, hdl]⟩]
    rfl
  unfold ydl_hook_apply
  rw [key, upd_percent]
  rfl

/-- Witness for `claim_C5` at the spec's three data points: raw 50% stays
50, raw 5% is clamped up to 20, raw 99% is clamped down to 90. -/
theorem claim_C5_witness :
    (ydl_hook_apply (createJob "youtube" "Video" 0)
      { status := "downloading", total_bytes := some 1000000,
        downloaded_bytes := some 500000, speed := none } 1).percent = 50 ∧
    (ydl_hook_apply (createJob "youtube" "Video" 0)
      { status := "downloading", total_bytes := some 1000000,
        downloaded_bytes := some 50000, speed := none } 1).percent = 20 ∧
    (ydl_hook_apply (createJob "youtube" "Video" 0)
      { status := "downloading", total_bytes := some 1000000,
        downloaded_bytes := some 990000, speed := none } 1).percent = 90 :=
  ⟨(claim_C5 (createJob "youtube" "Video" 0) 1 1000000 500000 none
      (by decide) (by decide)).trans (by decide),
   (claim_C5 (createJob "youtube" "Video" 0) 1 1000000 50000 none
      (by decide) (by decide)).trans (by decide),
   (claim_C5 (createJob "youtube" "Video" 0) 1 1000000 990000 none
      (by decide) (by decide)).trans (by decide)⟩

lemma firstExistingExt_first_wins (fs : FS) (base : String) (e : String) (l₂ : List String)
    (l₁ : List String) (h₁ : ∀ x ∈ l₁, fs.pathExists (base ++ x) = false)
    (he : fs.pathExists (base ++ e) = true) :
    firstExistingExt fs base (l₁ ++ e :: l₂) = some (base ++ e) := by
  induction l₁ with
  | nil =>
      show firstExistingExt fs base (e :: l₂) = some (base ++ e)
      unfold firstExistingExt
      rw [if_pos he]
  | cons x xs ih =>
      show firstExistingExt fs base (x :: (xs ++ e :: l₂)) = some (base ++ e)
      unfold firstExistingExt
      rw [if_neg (fun hc => by
        rw [h₁ x (List.mem_cons_self x xs)] at hc
        exact absurd hc (by decide))]
      exact ih (fun y hy => h₁ y (List.mem_cons_of_mem x hy))

/-- Claim C6 (confirmed): when the predicted path does not exist, audio-kind
resolution returns `base + e` for the first extension `e` of the fixed audio
priority order (mp3, m4a, opus, ogg, wav, aac) that exists on disk: every
extension before `e` in the order is absent and `e` is present, whatever
else exists after it (lines 388-392).  In particular an existing `base.mp3`
always wins, being first in the order. -/
theorem claim_C6 (fs : FS) (now : Int) (p : String) (hp : p ≠ "")
    (hnot : fs.pathExists p = false)
    (l₁ l₂ : List String) (e : String)
    (horder : [".mp3", ".m4a", ".opus", ".ogg", ".wav", ".aac"] = l₁ ++ e :: l₂)
    (hmiss : ∀ x ∈ l₁, fs.pathExists ((splitext p).1 ++ x) = false)
    (hex : fs.pathExists ((splitext p).1 ++ e) = true) :
    find_downloaded_file fs now p "audio" = some ((splitext p).1 ++ e) := by
  have hbase : firstExistingExt fs (splitext p).1
      [".mp3", ".m4a", ".opus", ".ogg", ".wav", ".aac"] =
      some ((splitext p).1 ++ e) := by
    rw [horder]
    exact firstExistingExt_first_wins fs (splitext p).1 e l₂ l₁ hmiss hex
  unfold find_downloaded_file
  dsimp only
  rw [show extensions_for "audio" = [".mp3", ".m4a", ".opus", ".ogg", ".wav", ".aac"]
    from by decide]
  rw [if_neg (fun hc => by rw [hnot] at hc; exact absurd hc.2 (by decide))]
  rw [if_pos hp, hbase]

/-- Witness for `claim_C6` at two concrete directories: with `.mp3` absent
and both `base.ogg` and `base.wav` present, the higher-priority `.ogg` wins;
with only `base.m4a` present, resolution reaches it past the missing
`.mp3`. -/
theorem claim_C6_witness :
    find_downloaded_file ⟨[("/dl/song_x.wav", 11), ("/dl/song_x.ogg", 10)]⟩ 50
      "/dl/song_x.webm" "audio" = some "/dl/song_x.ogg" ∧
    find_downloaded_file ⟨[("/dl/song_x.m4a", 12)]⟩ 50
      "/dl/song_x.webm" "audio" = some "/dl/song_x.m4a" :=
  ⟨(claim_C6 ⟨[("/dl/song_x.wav", 11), ("/dl/song_x.ogg", 10)]⟩ 50 "/dl/song_x.webm"
      (by decide) (by decide) [".mp3", ".m4a", ".opus"] [".wav", ".aac"] ".ogg"
      (by decide) (by decide) (by decide)).trans (by decide),
   (claim_C6 ⟨[("/dl/song_x.m4a", 12)]⟩ 50 "/dl/song_x.webm"
      (by decide) (by decide) [".mp3"] [".opus", ".ogg", ".wav", ".aac"] ".m4a"
      (by decide) (by decide) (by decide)).trans (by decide)⟩

/-- Claim C7 (confirmed): an `update_job_progress` call whose job id is not
in the store leaves the store unchanged (and raises nothing — totality of
the function); on a present id only the provided fields change, besides
`last_update` and the derived `speed`; other ids and the immutable
`platform` / `media_type` / `start_time` fields are untouched. -/
theorem claim_C7 (st : Store) (jid : String) (a : UpdateArgs) (now : Int) :
    (st jid = none → updateStore st jid a now = st) ∧
    (∀ j, st jid = some j →
      (∀ s, s ≠ jid → updateStore st jid a now s = st s) ∧
      updateStore st jid a now jid = some (update_job_progress j a now) ∧
      (a.percent = none → (update_job_progress j a now).percent = j.percent) ∧
      (a.status = "" → (update_job_progress j a now).status = j.status) ∧
      (a.downloaded_bytes = none →
        (update_job_progress j a now).downloaded_bytes = j.downloaded_bytes) ∧
      (a.total_bytes = none → (update_job_progress j a now).total_bytes = j.total_bytes) ∧
      (a.filename = none → (update_job_progress j a now).filename = j.filename) ∧
      (a.error = none → (update_job_progress j a now).error = j.error) ∧
      (a.speed = none → a.downloaded_bytes = none →
        (update_job_progress j a now).speed = j.speed) ∧
      (update_job_progress j a now).platform = j.platform ∧
      (update_job_progress j a now).media_type = j.media_type ∧
      (update_job_progress j a now).start_time = j.start_time) := by
  constructor
  · intro h
    unfold updateStore
    rw [h]
  · intro j hj
    refine ⟨?_, ?_, ?_, ?_, ?_, ?_, ?_, ?_, ?_, rfl, rfl, rfl⟩
    · intro s hs
      unfold updateStore
      rw [hj]
      exact if_neg hs
    · unfold updateStore
      rw [hj]
      exact if_pos rfl
    · intro h; rw [upd_percent, h]; rfl
    · intro h; rw [upd_status, if_pos h]
    · intro h
      show (a.downloaded_bytes.getD j.downloaded_bytes) = j.downloaded_bytes
      rw [h]; rfl
    · intro h
      show (a.total_bytes.getD j.total_bytes) = j.total_bytes
      rw [h]; rfl
    · intro h; rw [upd_filename, h]
    · intro h; rw [upd_error, h]
    · intro hsp hdb
      show (update_job_progress j a now).speed = j.speed
      unfold update_job_progress
      rw [hsp, hdb]

/-- Witness for `claim_C7`: an all-`none` update on a one-record store keeps
the other id empty and every content field of the record unchanged. -/
theorem claim_C7_witness :
    updateStore (fun s => if s = "a" then some (createJob "youtube" "Video" 0) else none)
      "a" { status := "" } 5 "b" = none ∧
    (update_job_progress (createJob "youtube" "Video" 0) { status := "" } 5).percent =
      (createJob "youtube" "Video" 0).percent ∧
    (update_job_progress (createJob "youtube" "Video" 0) { status := "" } 5).status =
      (createJob "youtube" "Video" 0).status :=
  have h := (claim_C7 (fun s => if s = "a" then some (createJob "youtube" "Video" 0) else none)
    "a" { status := "" } 5).2 (createJob "youtube" "Video" 0) rfl
  ⟨h.1 "b" (by decide), h.2.2.1 rfl, h.2.2.2.1 rfl⟩

/-- Claim C8 (confirmed): a stream opened for a job id absent from the store
emits exactly one error event and terminates (lines 674-676). -/
theorem claim_C8 (stores : Nat → Store) (times : Nat → Int) (jid : String) (fuel : Nat)
    (h : stores 0 jid = none) :
    event_stream stores times jid fuel = [SSEEvent.jobNotFound] ∧
    (event_stream stores times jid fuel).length = 1 := by
  unfold event_stream
  rw [h]
  exact ⟨rfl, rfl⟩

/-- Witness for `claim_C8` on an empty store. -/
theorem claim_C8_witness :
    event_stream (fun _ => (fun _ => none)) (fun _ => 0) "ghost" 9 = [SSEEvent.jobNotFound] :=
  (claim_C8 (fun _ => (fun _ => none)) (fun _ => 0) "ghost" 9 rfl).1

/-- Claim C9 (confirmed): one Reaper sweep deletes a present record exactly
when its status is terminal (`done`/`error`) and its `start_time` is
strictly more than 3600 seconds old; otherwise — in particular for every
non-terminal record, at any age — the record survives unchanged
(lines 830-841). -/
theorem claim_C9 (st : Store) (now : Int) (id : String) (j : Job) (h : st id = some j) :
    (cleanup_old_jobs st now id = none ↔
      ((j.status = "done" ∨ j.status = "error") ∧ now - j.start_time > 3600)) ∧
    (¬ ((j.status = "done" ∨ j.status = "error") ∧ now - j.start_time > 3600) →
      cleanup_old_jobs st now id = some j) ∧
    (j.status ≠ "done" → j.status ≠ "error" → cleanup_old_jobs st now id = some j) := by
  unfold cleanup_old_jobs
  rw [h]
  dsimp only
  split_ifs with hc
  · exact ⟨iff_of_true rfl hc, fun hn => absurd hc hn,
      fun hd he => absurd hc (by rintro ⟨(hx | hx), _⟩; exacts [hd hx, he hx])⟩
  · exact ⟨iff_of_false (by simp) hc, fun _ => rfl, fun _ _ => rfl⟩

/-- Witness for `claim_C9`: a `done` job started at time 0 is deleted at
`now = 3601` and retained at `now = 3599`. -/
theorem claim_C9_witness :
    cleanup_old_jobs
      (fun s => if s = "a" then
        some { createJob "youtube" "Video" 0 with
                status := "done", percent := 100, filename := some "f.mp4" }
        else none) 3601 "a" = none ∧
    cleanup_old_jobs
      (fun s => if s = "a" then
        some { createJob "youtube" "Video" 0 with
                status := "done", percent := 100, filename := some "f.mp4" }
        else none) 3599 "a" =
      some { createJob "youtube" "Video" 0 with
              status := "done", percent := 100, filename := some "f.mp4" } :=
  ⟨(claim_C9 _ 3601 "a" _ rfl).1.mpr (by decide),
   (claim_C9 _ 3599 "a" _ rfl).2.1 (by decide)⟩

/-- Claim C10 (confirmed): a request body without `mediaType` defaults to
the string `"Video"` (line 456); any media type whose lower-casing is not an
audio variant and not `photo` — in particular the default — takes the
engine-delegated controller branch (line 530) and the video branch of
`make_ydl_opts` (per-platform video format selection, no audio
post-processor, no `skip_download`). -/
theorem claim_C10 (bodyMediaType : Option String) (platform : String) :
    (bodyMediaType = none → bodyMediaType.getD "Video" = "Video") ∧
    (∀ mtv, bodyMediaType.getD "Video" = mtv →
      lowerStr mtv ≠ "audio" → lowerStr mtv ≠ "audio only" → lowerStr mtv ≠ "audio-only" →
      lowerStr mtv ≠ "photo" →
      controller_branch mtv = ControllerBranch.engineDownload ∧
      make_ydl_opts mtv platform =
        { format := video_format platform,
          merge_output_format := video_merge_format platform }) := by
  refine ⟨fun h => by rw [h]; rfl, ?_⟩
  intro mtv _ h1 h2 h3 h4
  constructor
  · unfold controller_branch
    rw [if_neg h4]
  · unfold make_ydl_opts video_format video_merge_format
    dsimp only
    rw [if_neg (by rintro (h | h | h); exacts [h1 h, h2 h, h3 h]), if_neg h4]
    split_ifs <;> simp_all

/-- Witness for `claim_C10` at the defaulted media type and `youtube`. -/
theorem claim_C10_witness :
    controller_branch "Video" = ControllerBranch.engineDownload ∧
    make_ydl_opts "Video" "youtube" =
      { format := video_format "youtube",
        merge_output_format := video_merge_format "youtube" } :=
  (claim_C10 none "youtube").2 "Video" rfl (by decide) (by decide) (by decide) (by decide)
